import Mathlib

set_option autoImplicit false
set_option maxRecDepth 40000

/-!
Verification of the text-simplification endpoint `explain_text` from `main.py`
of the Clarity API. The endpoint trims its input, performs ordered dictionary
based jargon substitution (each key both as written and capitalized), splits
the result into sentences at whitespace runs preceded by `.`, `!` or `?`,
removes filler phrases per sentence, truncates sentences longer than 24 words
(recording a tip), joins the surviving sentences with single spaces, and adds
a framing prefix when the text was left unchanged. Strings are modelled as
`List Char`; all definitions are executable and mirror the Python source.
-/

namespace Clarity

/-- Whitespace characters recognised by Python string operations on ASCII text
(space, tab, newline, carriage return, vertical tab, form feed). -/
def pyWs (c : Char) : Bool :=
  c = ' ' || c = '\t' || c = '\n' || c = '\r' || c = Char.ofNat 11 || c = Char.ofNat 12

/-- Python `str.strip()`: drop leading and trailing whitespace. -/
def pyStrip (s : List Char) : List Char :=
  ((s.dropWhile pyWs).reverse.dropWhile pyWs).reverse

/-- Python `str.capitalize()`: first character uppercased, remaining characters
lowercased. -/
def pyCapitalize : List Char → List Char
  | [] => []
  | c :: rest => c.toUpper :: rest.map Char.toLower

/-- Fuel-driven core of `replaceAll`: replace occurrences of `pat` by `rep`
left to right, non-overlapping, never rescanning replacement text. -/
def replFuel (pat rep : List Char) : Nat → List Char → List Char
  | 0, s => s
  | _ + 1, [] => []
  | n + 1, c :: rest =>
    if pat.isPrefixOf (c :: rest) then
      rep ++ replFuel pat rep n ((c :: rest).drop pat.length)
    else
      c :: replFuel pat rep n rest

/-- Python `str.replace(pat, rep)` for a non-empty pattern: replace every
occurrence, scanning left to right. The fuel `s.length` is always sufficient
because every step consumes at least one character of `s`. -/
def replaceAll (pat rep s : List Char) : List Char :=
  replFuel pat rep s.length s

/-- The fixed jargon table of `explain_text`, in Python dict insertion order.
The source literal lists the key `endeavour` twice with the same value; a dict
keeps one entry at the first position, so the table has 24 entries. -/
def replacements : List (List Char × List Char) :=
  [("utilize".toList, "use".toList),
   ("leverage".toList, "use".toList),
   ("in the event that".toList, "if".toList),
   ("notwithstanding".toList, "despite".toList),
   ("commence".toList, "start".toList),
   ("terminate".toList, "end".toList),
   ("endeavor".toList, "try".toList),
   ("subsequent".toList, "next".toList),
   ("prior to".toList, "before".toList),
   ("pursuant to".toList, "under".toList),
   ("facilitate".toList, "help".toList),
   ("endeavour".toList, "try".toList),
   ("approximately".toList, "about".toList),
   ("modality".toList, "way".toList),
   ("methodology".toList, "method".toList),
   ("mitigate".toList, "reduce".toList),
   ("ameliorate".toList, "improve".toList),
   ("expedite".toList, "speed up".toList),
   ("commensurate".toList, "matching".toList),
   ("aforementioned".toList, "mentioned above".toList),
   ("henceforth".toList, "from now on".toList),
   ("therein".toList, "in it".toList),
   ("thereof".toList, "of it".toList),
   ("heretofore".toList, "until now".toList)]

/-- The jargon-substitution loop: `simplified.replace(k, v).replace(k.capitalize(), v.capitalize())`
for each table pair in order, each pass acting on the current string. -/
def applyJargon (s : List Char) : List Char :=
  replacements.foldl
    (fun acc kv =>
      replaceAll (pyCapitalize kv.1) (pyCapitalize kv.2) (replaceAll kv.1 kv.2 acc))
    s

/-- Does an optional character end a sentence, i.e. is it `.`, `!` or `?`. -/
def endPunct : Option Char → Bool
  | some c => c = '.' || c = '!' || c = '?'
  | none => false

/-- Worker for sentence splitting. `acc` holds the current piece reversed;
`skipping` is true while consuming a separator whitespace run. A whitespace
character opens a separator exactly when the previous character is `.`, `!`
or `?`, matching the regex split on whitespace runs with that lookbehind. -/
def splitSentAux (skipping : Bool) (acc : List Char) : List Char → List (List Char)
  | [] => [acc.reverse]
  | c :: rest =>
    if skipping then
      if pyWs c then splitSentAux true [] rest
      else splitSentAux false [c] rest
    else if pyWs c && endPunct acc.head? then
      acc.reverse :: splitSentAux true [] rest
    else
      splitSentAux false (c :: acc) rest

/-- The sentence segmentation of `explain_text`: split at every maximal run of
whitespace immediately preceded by `.`, `!` or `?`; the punctuation stays with
the preceding piece and the whitespace is discarded. -/
def splitSentences (s : List Char) : List (List Char) :=
  splitSentAux false [] s

/-- Worker for Python `str.split()` with no arguments. -/
def splitWsAux (acc : List Char) : List Char → List (List Char)
  | [] => if acc = [] then [] else [acc.reverse]
  | c :: rest =>
    if pyWs c then
      if acc = [] then splitWsAux [] rest
      else acc.reverse :: splitWsAux [] rest
    else
      splitWsAux (c :: acc) rest

/-- Python `str.split()`: split on runs of whitespace, discarding empty pieces. -/
def pySplitWs (s : List Char) : List (List Char) :=
  splitWsAux [] s

/-- Python `" ".join(pieces)`. -/
def joinSpace : List (List Char) → List Char
  | [] => []
  | [s] => s
  | s :: rest => s ++ ' ' :: joinSpace rest

/-- The fixed filler-phrase list of `explain_text`, in source order. -/
def fillers : List (List Char) :=
  ["it should be noted that".toList,
   "for the avoidance of doubt".toList,
   "in order to".toList,
   "as per".toList,
   "with respect to".toList]

/-- The filler-removal loop: `s2.replace(f, "").replace(f.capitalize(), "")`
for each filler phrase in order. -/
def removeFillers (s : List Char) : List Char :=
  fillers.foldl (fun acc f => replaceAll (pyCapitalize f) [] (replaceAll f [] acc)) s

/-- The tip string appended for each truncated sentence. -/
def tipStr : List Char := "Long sentence shortened for clarity".toList

/-- The per-sentence loop body of `explain_text`, over the whole sentence list:
strip each sentence, drop it when empty, remove fillers, and when the word
count exceeds 24 record a tip and keep the first 24 words rejoined with single
spaces followed directly by the ellipsis character. Returns the collected
clean sentences paired with the collected tips, both in sentence order. -/
def processSentences : List (List Char) → List (List Char) × List (List Char)
  | [] => ([], [])
  | s :: rest =>
    let p := processSentences rest
    let s2 := pyStrip s
    if s2 = [] then p
    else
      let s2f := removeFillers s2
      let ws := pySplitWs s2f
      if ws.length > 24 then
        ((joinSpace (ws.take 24) ++ ['…']) :: p.1, tipStr :: p.2)
      else
        (s2f :: p.1, p.2)

/-- The response model of the endpoint: `original`, `explanation`, and an
optional `tips` list. -/
structure ExplainResponse where
  original : List Char
  explanation : List Char
  tips : Option (List (List Char))
deriving DecidableEq

/-- The guidance message returned for empty or whitespace-only input. -/
def noTextMsg : List Char := "Please provide some text to explain.".toList

/-- Framing text prepended when the text is unchanged and shorter than 30 words. -/
def simpleTermsPre : List Char := "In simple terms: ".toList

/-- Framing text prepended when the text is unchanged and has 30 or more words.
The apostrophe is spelled via its code point. -/
def gistPre : List Char := "Here".toList ++ [Char.ofNat 39] ++ "s the gist: ".toList

/-- The clean-sentences/tips pair computed by `explain_text` for a trimmed
non-empty input `t`: jargon substitution, sentence split, per-sentence loop. -/
def processedOf (t : List Char) : List (List Char) × List (List Char) :=
  processSentences (splitSentences (applyJargon (pyStrip t)))

/-- The endpoint `explain_text` of `main.py` as a pure function on the
submitted text. -/
def explain (t : List Char) : ExplainResponse :=
  if pyStrip t = [] then
    ⟨t, noTextMsg, none⟩
  else
    let explanation := joinSpace (processedOf t).1
    let explanation2 :=
      if explanation = pyStrip t then
        if (pySplitWs explanation).length < 30 then simpleTermsPre ++ explanation
        else gistPre ++ explanation
      else explanation
    ⟨pyStrip t, explanation2, if (processedOf t).2 = [] then none else some (processedOf t).2⟩

/-- The tips list produced for an input before the `tips or None` conversion;
empty for empty or whitespace-only input, which returns early. -/
def tipsOf (t : List Char) : List (List Char) :=
  if pyStrip t = [] then [] else (processedOf t).2

/-- Capitalization as worded in the specification: first character uppercased,
rest unchanged. -/
def specCapitalize : List Char → List Char
  | [] => []
  | c :: rest => c.toUpper :: rest

/-- Jargon substitution as worded in the specification: fold over the fixed
table in definition order, replacing each phrase and then its capitalized
variant (first character uppercased, rest unchanged) on the current string. -/
def specJargon (s : List Char) : List Char :=
  replacements.foldl
    (fun acc kv =>
      replaceAll (specCapitalize kv.1) (specCapitalize kv.2) (replaceAll kv.1 kv.2 acc))
    s

/-- Claim C1: for every input whose trimmed form is non-empty, the jargon-substituted
string equals the fold over the fixed jargon table in table-definition order,
each step replacing the phrase and then its capitalized variant (first
character uppercased, rest unchanged) on the current string; in particular the
sentence-initial capitalized jargon word in "Utilize this tool." is replaced
with the capitalized replacement. -/
theorem jargon_matches_spec_fold (t : List Char) (h : pyStrip t ≠ []) :
    applyJargon (pyStrip t) = specJargon (pyStrip t) ∧
      (explain "Utilize this tool.".toList).explanation = "Use this tool.".toList :=
  ⟨rfl, by decide⟩

theorem jargon_matches_spec_fold_witness :
    applyJargon (pyStrip "Utilize this tool.".toList) =
        specJargon (pyStrip "Utilize this tool.".toList) ∧
      (explain "Utilize this tool.".toList).explanation = "Use this tool.".toList :=
  jargon_matches_spec_fold "Utilize this tool.".toList (by decide)

/-- Claim C2: a sentence whose word count after filler removal exceeds 24 yields one
tip "Long sentence shortened for clarity" and is replaced by its first 24
words rejoined with single spaces followed directly by the ellipsis character;
in particular a single-sentence input of 30 words with no jargon and no filler
is truncated to its first 24 words with a trailing ellipsis and exactly one
tip. -/
theorem long_sentence_truncated (s : List Char) (rest : List (List Char))
    (h1 : pyStrip s ≠ []) (h2 : (pySplitWs (removeFillers (pyStrip s))).length > 24) :
    processSentences (s :: rest) =
      ((joinSpace ((pySplitWs (removeFillers (pyStrip s))).take 24) ++ ['…']) :: (processSentences rest).1,
        tipStr :: (processSentences rest).2) ∧
      explain (joinSpace (List.replicate 30 "zz".toList)) =
        ⟨joinSpace (List.replicate 30 "zz".toList),
          joinSpace (List.replicate 24 "zz".toList) ++ ['…'],
          some [tipStr]⟩ := by
  constructor
  · simp [processSentences, h1, h2]
  · decide

theorem long_sentence_truncated_witness :
    processSentences [joinSpace (List.replicate 30 "zz".toList)] =
      ((joinSpace ((pySplitWs (removeFillers (pyStrip (joinSpace (List.replicate 30 "zz".toList))))).take 24) ++ ['…']) ::
          (processSentences []).1,
        tipStr :: (processSentences []).2) ∧
      explain (joinSpace (List.replicate 30 "zz".toList)) =
        ⟨joinSpace (List.replicate 30 "zz".toList),
          joinSpace (List.replicate 24 "zz".toList) ++ ['…'],
          some [tipStr]⟩ :=
  long_sentence_truncated (joinSpace (List.replicate 30 "zz".toList)) [] (by decide) (by decide)

/-- Claim C3: for a non-empty trimmed input, when the joined explanation equals the
trimmed input the response explanation is that text prefixed with "In simple
terms: " if its word count is below 30 and with the gist framing otherwise,
and when the joined explanation differs from the trimmed input no framing text
is added. -/
theorem fallback_framing (t : List Char) (h : pyStrip t ≠ []) :
    (joinSpace (processedOf t).1 = pyStrip t →
        (explain t).explanation =
          (if (pySplitWs (joinSpace (processedOf t).1)).length < 30 then simpleTermsPre
           else gistPre) ++ joinSpace (processedOf t).1) ∧
      (joinSpace (processedOf t).1 ≠ pyStrip t →
        (explain t).explanation = joinSpace (processedOf t).1) := by
  constructor <;> intro hj <;> simp [explain, h, hj] <;> split_ifs <;> simp

theorem fallback_framing_witness :
    (explain "Nice day.".toList).explanation =
      (if (pySplitWs (joinSpace (processedOf "Nice day.".toList).1)).length < 30 then simpleTermsPre
       else gistPre) ++ joinSpace (processedOf "Nice day.".toList).1 :=
  (fallback_framing "Nice day.".toList (by decide)).1 (by decide)

/-- Claim C4: an input that is empty after trimming is answered with the untrimmed
input as `original`, the fixed guidance message, and no tips; every other
input is answered with the trimmed input as `original`. -/
theorem empty_input_guidance (t : List Char) :
    (pyStrip t = [] → explain t = ⟨t, noTextMsg, none⟩) ∧
      (pyStrip t ≠ [] → (explain t).original = pyStrip t) := by
  constructor <;> intro h <;> simp [explain, h]

theorem empty_input_guidance_witness :
    explain "   ".toList = ⟨"   ".toList, noTextMsg, none⟩ :=
  (empty_input_guidance "   ".toList).1 (by decide)

/-- Claim C5 counterexample: the input "Hi. in order to" has a sentence that becomes
empty only after filler removal; that empty string is collected and joined, so
the explanation carries a trailing space. This refutes the claim that no empty
string is ever contributed to the join. -/
theorem filler_emptied_sentence_joined :
    [] ∈ (processedOf "Hi. in order to".toList).1 ∧
      (explain "Hi. in order to".toList).explanation = "Hi. ".toList := by
  decide

/-- Claim C5 amended: a sentence that is empty after trimming is dropped entirely
and contributes nothing to the collected sentences or the tips; sentences
emptied only by filler removal are still collected. -/
theorem trimmed_empty_sentence_dropped (s : List Char) (ss : List (List Char))
    (h : pyStrip s = []) : processSentences (s :: ss) = processSentences ss := by
  simp [processSentences, h]

theorem trimmed_empty_sentence_dropped_witness :
    processSentences [" ".toList, "Hi.".toList] = processSentences ["Hi.".toList] :=
  trimmed_empty_sentence_dropped " ".toList ["Hi.".toList] (by decide)

/-- Claim C6: the `tips` field is absent exactly when the collected tips list is
empty, and otherwise it is that ordered list. -/
theorem tips_presence (t : List Char) :
    ((explain t).tips = none ↔ tipsOf t = []) ∧
      (tipsOf t ≠ [] → (explain t).tips = some (tipsOf t)) := by
  by_cases h : pyStrip t = [] <;> simp [explain, tipsOf, h] <;> split_ifs <;> simp_all

theorem tips_presence_witness :
    (explain (joinSpace (List.replicate 30 "zz".toList))).tips =
      some (tipsOf (joinSpace (List.replicate 30 "zz".toList))) :=
  (tips_presence (joinSpace (List.replicate 30 "zz".toList))).2 (by decide)

/-- Claim C7: `explain` is a total function; every well-formed input is mapped to an
`ExplainResponse`. -/
theorem explain_total (t : List Char) : ∃ r : ExplainResponse, explain t = r :=
  ⟨explain t, rfl⟩

/-- Claim C8: `explain` is deterministic; identical inputs yield identical
responses, with no dependence on anything outside the input. -/
theorem explain_deterministic (t1 t2 : List Char) (h : t1 = t2) :
    explain t1 = explain t2 := by
  rw [h]

theorem explain_deterministic_witness :
    explain "hi".toList = explain "hi".toList :=
  explain_deterministic "hi".toList "hi".toList rfl

/-- Claim C9: a truncated sentence is rebuilt by joining its first 24
whitespace-split words with single spaces (collapsing any whitespace runs)
before the ellipsis, while a sentence of at most 24 words is kept exactly as
filler removal left it, internal whitespace included. -/
theorem truncation_rejoins_single_spaces (s : List Char) (h : pyStrip s ≠ []) :
    ((pySplitWs (removeFillers (pyStrip s))).length > 24 →
        processSentences [s] =
          ([joinSpace ((pySplitWs (removeFillers (pyStrip s))).take 24) ++ ['…']], [tipStr])) ∧
      (¬ (pySplitWs (removeFillers (pyStrip s))).length > 24 →
        processSentences [s] = ([removeFillers (pyStrip s)], [])) := by
  constructor <;> intro hw <;> simp [processSentences, h, hw]

theorem truncation_rejoins_single_spaces_witness :
    processSentences [joinSpace (List.replicate 25 "qq  qq".toList)] =
      ([joinSpace ((pySplitWs (removeFillers (pyStrip (joinSpace (List.replicate 25 "qq  qq".toList))))).take 24) ++ ['…']],
        [tipStr]) :=
  (truncation_rejoins_single_spaces (joinSpace (List.replicate 25 "qq  qq".toList)) (by decide)).1 (by decide)

/-- Claim C10: the non-empty input "in order to" is a single sentence consisting of
a filler phrase; filler removal empties it, the join yields the empty
explanation, which differs from the original, so the response carries the
trimmed original, an empty explanation without framing text, and no tips. -/
theorem filler_only_input_empty_explanation :
    explain "in order to".toList = ⟨"in order to".toList, [], none⟩ ∧
      "in order to".toList ≠ [] := by
  decide

end Clarity
